import Mathlib

/-!
# Verification of the ERPi LED sequencer kernel module (`src/led.c`)

Shallow embedding of the sequencer core of `led.c`:

* `Mode` embeds `enum modes { CORRE, IZQ, DER }` (lines 40-42); `DER` is the
  SweepRight mode, `IZQ` SweepLeft, `CORRE` the 6-step Shuffle mode.
* `mode_store` / `period_store` embed the sysfs store callbacks (lines 60-66
  and 74-81), with `strncmp` modelled on `List Char` and the `size_t`
  underflow of `count - 1` made explicit.
* `flashTick` embeds one iteration of the `switch` cascade in the `flash`
  kthread body (lines 122-201): given the current mode and the `state`
  counter it yields the GPIO pattern written this tick (`none` when the
  `default:` branch writes nothing) and the new value of `state`.
* `flashIter` adds the `msleep(blinkPeriod/2)` of line 209, and `flashRun`
  embeds the `while(!kthread_should_stop())` loop (lines 120-210) over an
  explicit trace of per-iteration (stop flag, mode, period) observations.
-/

/-- The LED modes of `led.c` line 40: `enum modes { CORRE, IZQ, DER }`. -/
inductive Mode where
  | CORRE
  | IZQ
  | DER
deriving DecidableEq, Repr

/-- A GPIO output pattern for the four LEDs (LED1, LED2, LED3, LED4 on
GPIOs 5, 6, 13, 19). One `gpio_set_value` quadruple in `flash` writes one
such pattern. -/
structure Pattern where
  led1 : Bool
  led2 : Bool
  led3 : Bool
  led4 : Bool
deriving DecidableEq, Repr

/-- The module-global control state of `led.c`: `mode` (line 42, default
`DER`) and `blinkPeriod` (line 34, default 1000). -/
structure ModuleState where
  mode : Mode
  blinkPeriod : Nat
deriving DecidableEq, Repr

/-- C `strncmp` on character lists, where the end of a list stands for the
NUL terminator: compare at most `n` characters, stopping at a difference or
at a terminator; the sign of the result is the sign of the first
difference. -/
def strncmp : List Char → List Char → Nat → Int
  | _, _, 0 => 0
  | [], [], _ + 1 => 0
  | [], c2 :: _, _ + 1 => -(c2.toNat : Int)
  | c1 :: _, [], _ + 1 => (c1.toNat : Int)
  | c1 :: t1, c2 :: t2, n + 1 =>
    if c1 = c2 then strncmp t1 t2 n else (c1.toNat : Int) - (c2.toNat : Int)

/-- The third `strncmp` argument in `mode_store` is `count-1` where `count`
has C type `size_t`: for `count = 0` the subtraction wraps to `2^64 - 1`. -/
def sizeTPred (count : Nat) : Nat :=
  if count = 0 then 2 ^ 64 - 1 else count - 1

/-- `mode_store` (led.c lines 60-66): compares the written buffer against
the tokens `"izq"`, `"corre"`, `"der"` with `strncmp(buf, tok, count-1)`,
updating `mode` on the first match, and returns `count` unconditionally. -/
def mode_store (buf : List Char) (count : Nat) (st : ModuleState) :
    ModuleState × Nat :=
  let n := sizeTPred count
  let st' :=
    if strncmp buf ("izq".toList) n = 0 then { st with mode := Mode.IZQ }
    else if strncmp buf ("corre".toList) n = 0 then { st with mode := Mode.CORRE }
    else if strncmp buf ("der".toList) n = 0 then { st with mode := Mode.DER }
    else st
  (st', count)

/-- `period_store` (led.c lines 74-81), taking as input the unsigned value
`period` that `sscanf(buf, "%du", &period)` parsed from the buffer: the
stored `blinkPeriod` is updated only when `period>1 && period<=10000`, and
the function returns `period` (not `count`). -/
def period_store (period : Nat) (st : ModuleState) : ModuleState × Nat :=
  (if 1 < period ∧ period ≤ 10000 then { st with blinkPeriod := period }
   else st, period)

/-- One pass of the per-mode `switch (state)` cascade in `flash`
(led.c lines 122-201): returns the pattern written by the four
`gpio_set_value` calls of the selected `case` (or `none` for the
`default:` branch, which writes nothing) together with the new value of
the `state` counter. -/
def flashTick (m : Mode) (state : Nat) : Option Pattern × Nat :=
  match m with
  | Mode.DER =>
    match state with
    | 0 => (some ⟨true, false, false, false⟩, 1)
    | 1 => (some ⟨false, true, false, false⟩, 2)
    | 2 => (some ⟨false, false, true, false⟩, 3)
    | 3 => (some ⟨false, false, false, true⟩, 0)
    | _ + 4 => (none, 0)
  | Mode.IZQ =>
    match state with
    | 0 => (some ⟨false, false, false, true⟩, 1)
    | 1 => (some ⟨false, false, true, false⟩, 2)
    | 2 => (some ⟨false, true, false, false⟩, 3)
    | 3 => (some ⟨true, false, false, false⟩, 0)
    | _ + 4 => (none, 0)
  | Mode.CORRE =>
    match state with
    | 0 => (some ⟨false, false, false, true⟩, 1)
    | 1 => (some ⟨false, false, true, false⟩, 2)
    | 2 => (some ⟨false, true, false, false⟩, 3)
    | 3 => (some ⟨true, false, false, false⟩, 4)
    | 4 => (some ⟨false, true, false, false⟩, 5)
    | 5 => (some ⟨false, false, true, false⟩, 0)
    | _ + 6 => (none, 0)

/-- The length of each mode's cyclic sequence: 4 cases for `DER` and
`IZQ`, 6 for `CORRE`. -/
def seqLen : Mode → Nat
  | Mode.DER => 4
  | Mode.IZQ => 4
  | Mode.CORRE => 6

/-- Number of asserted outputs in a pattern. -/
def activeCount (p : Pattern) : Nat :=
  (if p.led1 then 1 else 0) + (if p.led2 then 1 else 0) +
    (if p.led3 then 1 else 0) + (if p.led4 then 1 else 0)

/-- Iterate the `state` update of `flashTick` for a fixed mode. -/
def stepIter (m : Mode) : Nat → Nat → Nat
  | 0, s => s
  | n + 1, s => stepIter m n (flashTick m s).2

/-- The list of the patterns written by `n` successive ticks of `flash`
in mode `m` starting from counter value `s`. -/
def patTrace (m : Mode) (s : Nat) : Nat → List (Option Pattern)
  | 0 => []
  | n + 1 => (flashTick m s).1 :: patTrace m (flashTick m s).2 n

/-- One full iteration of the `flash` loop body in mode `m` with period
`p` and counter `s`: the `switch` cascade followed by
`msleep(blinkPeriod/2)` (led.c line 209). Yields the written pattern (if
any), the sleep duration in milliseconds, and the new counter. -/
def flashIter (m : Mode) (p : Nat) (s : Nat) :
    (Option Pattern × Nat) × Nat :=
  (((flashTick m s).1, p / 2), (flashTick m s).2)

/-- The `while(!kthread_should_stop())` loop of `flash` (led.c lines
120-210) over a trace of per-iteration observations `(stop, mode,
period)`: the stop flag is sampled at the top of each iteration, and a
set flag exits the loop before any GPIO write. Returns the list of
(written pattern, sleep milliseconds) events of the completed
iterations. -/
def flashRun : List (Bool × Mode × Nat) → Nat → List (Option Pattern × Nat)
  | [], _ => []
  | (stop, m, p) :: rest, s =>
    if stop then []
    else (flashIter m p s).1 :: flashRun rest (flashIter m p s).2

/-! ## Helper lemmas -/

/-- The `default:` branch of the `DER` switch writes nothing and zeroes
the counter. -/
theorem flashTick_DER_default (n : Nat) :
    flashTick Mode.DER (n + 4) = (none, 0) := rfl

/-- The `default:` branch of the `IZQ` switch writes nothing and zeroes
the counter. -/
theorem flashTick_IZQ_default (n : Nat) :
    flashTick Mode.IZQ (n + 4) = (none, 0) := rfl

/-- The `default:` branch of the `CORRE` switch writes nothing and zeroes
the counter. -/
theorem flashTick_CORRE_default (n : Nat) :
    flashTick Mode.CORRE (n + 6) = (none, 0) := rfl

/-! ## Claims -/

/-- C1: the claim says `mode_store` updates the mode only on the three
exact literal tokens and ignores every other request, token prefixes
included. The code compares only `count-1` characters, so the sysfs write
`"i\n"` (count = 2, i.e. `echo i > mode`) and the two-character request
`"iz"` both pass the `strncmp` test for `"izq"` and switch the mode from
`DER` to `IZQ`, contradicting the claim. -/
theorem mode_store_truncated_match_updates_mode :
    (mode_store ("i\n".toList) 2 ⟨Mode.DER, 1000⟩).1.mode = Mode.IZQ ∧
    (mode_store ("iz".toList) 2 ⟨Mode.DER, 1000⟩).1.mode = Mode.IZQ := by
  decide

/-- C2 counterexample: the claim says one step from an out-of-range state
already yields the index-0 pattern with next state 1; at mode `DER`,
state 7 the code instead writes nothing and returns state 0. -/
theorem flashTick_out_of_range_single_step_refuted :
    ¬ flashTick Mode.DER 7 = ((flashTick Mode.DER 0).1, 1) := by
  decide

/-- C2 (amended): for every mode and out-of-range state, one step does
not panic: it writes no pattern and resets the counter to 0, and the
following step produces the pattern of index 0 and returns next state 1. -/
theorem flashTick_out_of_range_recovery (m : Mode) (s : Nat)
    (h : seqLen m ≤ s) :
    flashTick m s = (none, 0) ∧
    flashTick m (flashTick m s).2 = flashTick m 0 ∧
    (flashTick m 0).2 = 1 := by
  obtain ⟨n, rfl⟩ : ∃ n, s = n + seqLen m := ⟨s - seqLen m, by omega⟩
  cases m <;> exact ⟨rfl, rfl, rfl⟩

/-- C2 witness: the recovery theorem instantiated at mode `DER`,
state 7. -/
theorem flashTick_out_of_range_recovery_witness :
    seqLen Mode.DER ≤ 7 ∧
    (flashTick Mode.DER 7 = (none, 0) ∧
      flashTick Mode.DER (flashTick Mode.DER 7).2 = flashTick Mode.DER 0 ∧
      (flashTick Mode.DER 0).2 = 1) :=
  ⟨by decide, flashTick_out_of_range_recovery Mode.DER 7 (by decide)⟩

/-- C3: for every valid (mode, counter) pair, one step writes a pattern
with exactly one asserted output and returns a next state that is a valid
index for that mode's sequence length. -/
theorem flashTick_single_active_valid_next (m : Mode) (s : Nat)
    (h : s < seqLen m) :
    ((flashTick m s).1).map activeCount = some 1 ∧
    (flashTick m s).2 < seqLen m := by
  cases m <;> simp only [seqLen] at h <;> interval_cases s <;> decide

/-- C3 witness: the single-active invariant instantiated at mode `DER`,
state 2. -/
theorem flashTick_single_active_valid_next_witness :
    2 < seqLen Mode.DER ∧
    (((flashTick Mode.DER 2).1).map activeCount = some 1 ∧
      (flashTick Mode.DER 2).2 < seqLen Mode.DER) :=
  ⟨by decide, flashTick_single_active_valid_next Mode.DER 2 (by decide)⟩

/-- C4: a period write is accepted exactly when `1 < v ≤ 10000`; rejected
writes (0, 1, 10001 among them) retain the prior period, accepted writes
(2 and 10000 among them) store the requested value. -/
theorem period_store_range_check (v : Nat) (st : ModuleState) :
    ((period_store v st).1.blinkPeriod =
        if 1 < v ∧ v ≤ 10000 then v else st.blinkPeriod) ∧
    (period_store 0 st).1.blinkPeriod = st.blinkPeriod ∧
    (period_store 1 st).1.blinkPeriod = st.blinkPeriod ∧
    (period_store 10001 st).1.blinkPeriod = st.blinkPeriod ∧
    (period_store 2 st).1.blinkPeriod = 2 ∧
    (period_store 10000 st).1.blinkPeriod = 10000 := by
  refine ⟨?_, by simp [period_store], by simp [period_store],
    by simp [period_store], by simp [period_store], by simp [period_store]⟩
  by_cases h : 1 < v ∧ v ≤ 10000 <;> simp [period_store, h]

/-- C5: for every mode, iterating the step exactly the sequence's length
(4 or 6) from any valid state returns the counter to its original value
(hence the (pattern, state) pair of the step recurs), and the step after
the last index wraps to index 0. -/
theorem flashTick_cycle_roundtrip (m : Mode) (s : Nat)
    (h : s < seqLen m) :
    stepIter m (seqLen m) s = s ∧
    flashTick m (stepIter m (seqLen m) s) = flashTick m s ∧
    (flashTick m (seqLen m - 1)).2 = 0 := by
  cases m <;> simp only [seqLen] at h <;> interval_cases s <;> decide

/-- C5 witness: the round-trip theorem instantiated at mode `CORRE`,
state 2. -/
theorem flashTick_cycle_roundtrip_witness :
    2 < seqLen Mode.CORRE ∧
    (stepIter Mode.CORRE (seqLen Mode.CORRE) 2 = 2 ∧
      flashTick Mode.CORRE (stepIter Mode.CORRE (seqLen Mode.CORRE) 2) =
        flashTick Mode.CORRE 2 ∧
      (flashTick Mode.CORRE (seqLen Mode.CORRE - 1)).2 = 0) :=
  ⟨by decide, flashTick_cycle_roundtrip Mode.CORRE 2 (by decide)⟩

/-- C6: in mode `DER` (SweepRight) from state 0 the successive ticks
write exactly [1000], [0100], [0010], [0001] and then wrap back to
[1000]. -/
theorem flashTick_der_trace :
    patTrace Mode.DER 0 5 =
      [some ⟨true, false, false, false⟩, some ⟨false, true, false, false⟩,
        some ⟨false, false, true, false⟩, some ⟨false, false, false, true⟩,
        some ⟨true, false, false, false⟩] := by
  decide

/-- C7: every loop iteration sleeps for exactly `blinkPeriod / 2`
milliseconds (integer division), so the minimum accepted period 2 yields
a 1 ms sleep. -/
theorem flashIter_sleep_half_period (m : Mode) (p s : Nat) :
    (flashIter m p s).1.2 = p / 2 ∧ (flashIter m 2 s).1.2 = 1 :=
  ⟨rfl, rfl⟩

/-- C8: the stop flag is sampled at the top of every iteration — a set
flag produces no event for that tick or any later one — and the whole
event list depends only on the iterations before the first set flag. -/
theorem flashRun_stops_at_cancellation :
    (∀ (m : Mode) (p : Nat) (rest : List (Bool × Mode × Nat)) (s : Nat),
        flashRun ((true, m, p) :: rest) s = []) ∧
    (∀ (inputs : List (Bool × Mode × Nat)) (s : Nat),
        flashRun inputs s =
          flashRun (inputs.takeWhile (fun i => !i.1)) s) := by
  refine ⟨fun m p rest s => rfl, ?_⟩
  intro inputs
  induction inputs with
  | nil => intro s; rfl
  | cons hd tl ih =>
    intro s
    obtain ⟨stop, m, p⟩ := hd
    cases stop
    · simp only [flashRun, List.takeWhile_cons, Bool.not_false, if_false,
        Bool.false_eq_true, ite_false, ih]
    · rfl

/-- C9: for every mode and every counter value in the unsigned byte
range, the step is total; when the counter is out of range it writes no
pattern, sets the counter to 0, and the following tick therefore runs
step 0. -/
theorem flashTick_total_out_of_range_no_write (m : Mode) (s : Nat)
    (h1 : s < 256) (h2 : seqLen m ≤ s) :
    (flashTick m s).1 = none ∧ (flashTick m s).2 = 0 ∧
    flashTick m (flashTick m s).2 = flashTick m 0 := by
  obtain ⟨n, rfl⟩ : ∃ n, s = n + seqLen m := ⟨s - seqLen m, by omega⟩
  cases m <;> exact ⟨rfl, rfl, rfl⟩

/-- C9 witness: the totality theorem instantiated at mode `CORRE`,
state 255. -/
theorem flashTick_total_out_of_range_no_write_witness :
    255 < 256 ∧ seqLen Mode.CORRE ≤ 255 ∧
    ((flashTick Mode.CORRE 255).1 = none ∧
      (flashTick Mode.CORRE 255).2 = 0 ∧
      flashTick Mode.CORRE (flashTick Mode.CORRE 255).2 =
        flashTick Mode.CORRE 0) :=
  ⟨by decide, by decide,
    flashTick_total_out_of_range_no_write Mode.CORRE 255 (by decide)
      (by decide)⟩

/-- C10: `mode_store` returns `count` — the full request length — for
every request, accepted or not; no error is ever surfaced through its
return value. -/
theorem mode_store_returns_count (buf : List Char) (count : Nat)
    (st : ModuleState) : (mode_store buf count st).2 = count := rfl
